import Mathlib

/-!
Verification development for the socrabot retrieval-augmented tutoring
pipeline.  Python string-level code is embedded over `List Char`
(`String.data`); every definition mirrors the corresponding function in
`app.py` / `llama.py`.
-/

/-! ## Python string primitives, modelled on lists of characters -/

/-- Whitespace in the sense of Python's `str.strip`. -/
def pyIsSpace (c : Char) : Bool :=
  c = ' ' || c = '\t' || c = '\n' || c = '\r' || c = '\x0b' || c = '\x0c'

/-- Python `str.strip()`: drop whitespace from both ends. -/
def pyStrip (l : List Char) : List Char :=
  ((l.dropWhile pyIsSpace).reverse.dropWhile pyIsSpace).reverse

/-- Python `str.split(sep)` for a one-character separator: always returns at
least one (possibly empty) segment. -/
def splitOnChar (sep : Char) : List Char → List (List Char)
  | [] => [[]]
  | c :: rest =>
    if c = sep then [] :: splitOnChar sep rest
    else
      match splitOnChar sep rest with
      | [] => [c] :: []
      | l :: ls => (c :: l) :: ls

/-- Python `str.split("\n")`. -/
def splitOnNL : List Char → List (List Char) := splitOnChar '\n'

/-- Helper for `str.splitlines`: the split on newline produces a final empty
segment exactly when the text ends with a newline; `splitlines` drops it. -/
def dropFinalEmpty (parts : List (List Char)) : List (List Char) :=
  if parts.getLast? = some [] then parts.dropLast else parts

/-- Python `str.splitlines()` (modelled for `"\n"` line terminators). -/
def pySplitlines (l : List Char) : List (List Char) :=
  dropFinalEmpty (splitOnNL l)

/-- Python `needle in hay` substring test. -/
def containsSub (needle : List Char) : List Char → Bool
  | [] => needle.isPrefixOf []
  | c :: rest => needle.isPrefixOf (c :: rest) || containsSub needle rest

/-- Python `str.removeprefix`. -/
def pyRemovePrefix (p l : List Char) : List Char :=
  if p.isPrefixOf l then l.drop p.length else l

/-! ## `count_code_lines` (src/app.py, inside the `/ask-code` handler) -/

/-- The tuple of code-like tokens from `line.strip().startswith((...))` in
`count_code_lines`. -/
def codeTokens : List String :=
  ["def ", "class ", "for ", "while ", "if ", "elif ", "else:", "try:",
   "except", "with ", "import ", "from ", "#", "@", "return", "print("]

/-- `line.strip().startswith(codeTokens)`. -/
def startsWithCodeToken (line : List Char) : Bool :=
  codeTokens.any (fun p => p.data.isPrefixOf (pyStrip line))

/-- The triple-backtick fence marker. -/
def fenceMarker : List Char := "```".data

/-- The line loop of `count_code_lines`: `in_block` is flipped by every line
containing the fence marker (which is then skipped); otherwise a line counts
when inside a block or when it starts with a code-like token. -/
def countLines : Bool → List (List Char) → Nat
  | _, [] => 0
  | inBlock, line :: rest =>
    if containsSub fenceMarker line then countLines (!inBlock) rest
    else if inBlock || startsWithCodeToken line then 1 + countLines inBlock rest
    else countLines inBlock rest

/-- `count_code_lines` from `src/app.py` (lines 70-79). -/
def count_code_lines (text : String) : Nat :=
  countLines false (pySplitlines text.data)

/-- The fence-flag state after scanning a list of lines. -/
def flagAfter (flag : Bool) : List (List Char) → Bool
  | [] => flag
  | line :: rest =>
    flagAfter (if containsSub fenceMarker line then !flag else flag) rest

/-! ## The `/ask-code` content-policy loop (src/app.py, lines 80-100) -/

/-- `max_code_lines` in `ask_code`. -/
def max_code_lines : Nat := 5

/-- `max_retries` in `ask_code`. -/
def max_retries : Nat := 2

/-- The corrective system-message content built for a reissue
(`retry_prompt` in `ask_code`). -/
def retry_prompt_content (code_line_count : Nat) : String :=
  "Your previous response contained too many lines of code (" ++
    toString code_line_count ++ "). Please reduce it to **at most " ++
    toString max_code_lines ++
    " lines**, and focus on reasoning or pseudocode."

/-- Observable outcome of the `while True` loop in `ask_code`: the final
response text, the final `retries` counter, the reissue prompts sent, and the
response texts passed to `update_summary` (one per iteration when a user
identity is present). -/
structure AskCodeOutcome where
  response : String
  retries : Nat
  prompts : List String
  summaryUpdates : List String
deriving DecidableEq

/-- The `while True` loop of `ask_code`.  `complete r p` is the completion
client's response text for the reissue issued at retry counter `r` with
corrective prompt content `p`; `useSummary` is the truthiness of `user_id`. -/
def ask_code_loop (complete : Nat → String → String) (useSummary : Bool)
    (response : String) (retries : Nat) : AskCodeOutcome :=
  let updates := if useSummary then [response] else []
  let code_line_count := count_code_lines response
  if code_line_count > max_code_lines then
    if _hr : retries ≥ max_retries then
      ⟨response, retries, [], updates⟩
    else
      let p := retry_prompt_content code_line_count
      let rest := ask_code_loop complete useSummary (complete retries p) (retries + 1)
      ⟨rest.response, rest.retries, p :: rest.prompts, updates ++ rest.summaryUpdates⟩
  else
    ⟨response, retries, [], updates⟩
termination_by max_retries + 1 - retries
decreasing_by simp only [max_retries] at *; omega

/-! ## JSON values and `json.loads` (model of the Python stdlib parser) -/

/-- Python values produced by `json.loads`. -/
inductive PyJson where
  | null
  | boolean (b : Bool)
  | num (n : Int)
  | str (s : List Char)
  | arr (elems : List PyJson)
  | obj (fields : List (List Char × PyJson))

/-- Python exceptions relevant to `Llama.extract_content`. -/
inductive PyErr where
  | jsonDecodeError
  | keyError
  | indexError
  | typeError
  | attributeError
deriving DecidableEq

/-- JSON whitespace. -/
def jsonIsWS (c : Char) : Bool :=
  c = ' ' || c = '\t' || c = '\n' || c = '\r'

def skipWS (l : List Char) : List Char := l.dropWhile jsonIsWS

/-- One escape character inside a JSON string literal. -/
def escChar (c : Char) : Option Char :=
  if c = '"' then some '"'
  else if c = '\\' then some '\\'
  else if c = '/' then some '/'
  else if c = 'n' then some '\n'
  else if c = 't' then some '\t'
  else if c = 'r' then some '\r'
  else if c = 'b' then some '\x08'
  else if c = 'f' then some '\x0c'
  else none

/-- Body of a JSON string literal, after the opening quote: returns the
decoded characters and the remainder after the closing quote. -/
def parseStringBody : List Char → Option (List Char × List Char)
  | [] => none
  | c :: rest =>
    if c = '"' then some ([], rest)
    else if c = '\\' then
      match rest with
      | [] => none
      | e :: rest2 =>
        match escChar e with
        | none => none
        | some d =>
          match parseStringBody rest2 with
          | none => none
          | some (s, r) => some (d :: s, r)
    else
      match parseStringBody rest with
      | none => none
      | some (s, r) => some (c :: s, r)

def digitVal (c : Char) : Nat := c.toNat - '0'.toNat

def digitsVal (ds : List Char) : Nat :=
  ds.foldl (fun a c => a * 10 + digitVal c) 0

/-- An optionally signed integer literal. -/
def parseIntLit (l : List Char) : Option (Int × List Char) :=
  let (neg, l2) := match l with
    | '-' :: rest => (true, rest)
    | _ => (false, l)
  let ds := l2.takeWhile Char.isDigit
  let rest := l2.dropWhile Char.isDigit
  if ds = [] then none
  else some (if neg then -(digitsVal ds : Int) else (digitsVal ds : Int), rest)

mutual

/-- Recursive-descent JSON value parser (fuel-indexed; fuel exceeding the
input length never runs out). -/
def parseVal : Nat → List Char → Option (PyJson × List Char)
  | 0, _ => none
  | fuel + 1, l =>
    match skipWS l with
    | [] => none
    | c :: rest =>
      if c = 'n' then
        if "ull".data.isPrefixOf rest then some (.null, rest.drop 3) else none
      else if c = 't' then
        if "rue".data.isPrefixOf rest then some (.boolean true, rest.drop 3) else none
      else if c = 'f' then
        if "alse".data.isPrefixOf rest then some (.boolean false, rest.drop 4) else none
      else if c = '"' then
        match parseStringBody rest with
        | none => none
        | some (s, r) => some (.str s, r)
      else if c = '[' then
        match skipWS rest with
        | ']' :: r => some (.arr [], r)
        | other =>
          match parseElems fuel other with
          | none => none
          | some (elems, r) => some (.arr elems, r)
      else if c = '\x7b' then
        match skipWS rest with
        | '\x7d' :: r => some (.obj [], r)
        | other =>
          match parseFields fuel other with
          | none => none
          | some (fields, r) => some (.obj fields, r)
      else
        match parseIntLit (c :: rest) with
        | none => none
        | some (n, r) => some (.num n, r)

/-- Comma-separated array elements, terminated by `]`. -/
def parseElems : Nat → List Char → Option (List PyJson × List Char)
  | 0, _ => none
  | fuel + 1, l =>
    match parseVal fuel l with
    | none => none
    | some (v, r) =>
      match skipWS r with
      | ']' :: r2 => some ([v], r2)
      | ',' :: r2 =>
        match parseElems fuel r2 with
        | none => none
        | some (vs, r3) => some (v :: vs, r3)
      | _ => none

/-- Comma-separated `"key": value` object members, terminated by `}`. -/
def parseFields : Nat → List Char → Option (List (List Char × PyJson) × List Char)
  | 0, _ => none
  | fuel + 1, l =>
    match skipWS l with
    | '"' :: rest =>
      match parseStringBody rest with
      | none => none
      | some (k, r) =>
        match skipWS r with
        | ':' :: r2 =>
          match parseVal fuel r2 with
          | none => none
          | some (v, r3) =>
            match skipWS r3 with
            | '\x7d' :: r4 => some ([(k, v)], r4)
            | ',' :: r4 =>
              match parseFields fuel r4 with
              | none => none
              | some (fs, r5) => some ((k, v) :: fs, r5)
            | _ => none
        | _ => none
    | _ => none

end

/-- `json.loads` on a list of characters: a full parse with only trailing
whitespace allowed; `none` models `json.JSONDecodeError`. -/
def json_loads (l : List Char) : Option PyJson :=
  match parseVal (l.length + 2) l with
  | none => none
  | some (j, rest) => if skipWS rest = [] then some j else none

/-! ## `Llama.extract_content` (src/llama.py, lines 100-122) -/

/-- Python dict lookup (last binding wins, as for duplicate JSON keys). -/
def objLookup (fields : List (List Char × PyJson)) (key : List Char) : Option PyJson :=
  match fields with
  | [] => none
  | (k, v) :: rest =>
    match objLookup rest key with
    | some r => some r
    | none => if k = key then some v else none

/-- Python `value["key"]` with a string key: `KeyError` on a missing dict
key, `TypeError` when the value is not a dict. -/
def subscriptKey (j : PyJson) (key : List Char) : Except PyErr PyJson :=
  match j with
  | .obj fields =>
    match objLookup fields key with
    | some v => .ok v
    | none => .error .keyError
  | _ => .error .typeError

/-- Python `value[0]`: `IndexError` on an empty list or string, `KeyError`
on a dict (JSON objects never carry the int key `0`), `TypeError`
otherwise. -/
def subscriptZero (j : PyJson) : Except PyErr PyJson :=
  match j with
  | .arr [] => .error .indexError
  | .arr (x :: _) => .ok x
  | .obj _ => .error .keyError
  | .str [] => .error .indexError
  | .str (c :: _) => .ok (.str [c])
  | _ => .error .typeError

/-- Python `value.get("key", None)`: `AttributeError` when the value is not
a dict; a stored JSON `null` and a missing key both yield `None`. -/
def dictGet (j : PyJson) (key : List Char) : Except PyErr (Option PyJson) :=
  match j with
  | .obj fields =>
    match objLookup fields key with
    | some .null => .ok none
    | some v => .ok (some v)
    | none => .ok none
  | _ => .error .attributeError

/-- The body of the `for line in lines` loop of `extract_content`:
`json.loads(line.removeprefix("data: "))`, then
`json_data["choices"][0]["delta"].get("content", None)`. -/
def extract_line (line : List Char) : Except PyErr (Option PyJson) :=
  match json_loads (pyRemovePrefix "data: ".data line) with
  | none => .error .jsonDecodeError
  | some json_data =>
    match subscriptKey json_data "choices".data with
    | .error e => .error e
    | .ok choices =>
      match subscriptZero choices with
      | .error e => .error e
      | .ok first =>
        match subscriptKey first "delta".data with
        | .error e => .error e
        | .ok delta => dictGet delta "content".data

/-- The loop over all lines: the `except (json.JSONDecodeError, KeyError)`
clause silently skips those two errors; any other exception propagates.  A
returned `content` of `None` is not appended. -/
def extract_lines : List (List Char) → Except PyErr (List PyJson)
  | [] => .ok []
  | line :: rest =>
    match extract_line line with
    | .error .jsonDecodeError => extract_lines rest
    | .error .keyError => extract_lines rest
    | .error e => .error e
    | .ok none => extract_lines rest
    | .ok (some content) =>
      match extract_lines rest with
      | .error e => .error e
      | .ok contents => .ok (content :: contents)

/-- Python `''.join(final_content)`: `TypeError` unless every element is a
string. -/
def pyJoinStrs : List PyJson → Except PyErr (List Char)
  | [] => .ok []
  | .str s :: rest =>
    match pyJoinStrs rest with
    | .error e => .error e
    | .ok r => .ok (s ++ r)
  | _ :: _ => .error .typeError

/-- `Llama.extract_content`: split the stripped payload on newlines, extract
each line's nested `choices[0].delta.content`, and join the results. -/
def extract_content (data_string : String) : Except PyErr String :=
  match extract_lines (splitOnNL (pyStrip data_string.data)) with
  | .error e => .error e
  | .ok final_content =>
    match pyJoinStrs final_content with
    | .error e => .error e
    | .ok joined => .ok ⟨joined⟩

/-! ## Messages and `Llama.collapse_messages` (src/llama.py, lines 311-323) -/

/-- The `LlamaMessage` dataclass. -/
structure LlamaMessage where
  content : String
  role : String
  name : Option String := none

/-- One entry of the collapsed payload: a `{"role": ..., "content": ...}`
dict. -/
structure PayloadMsg where
  role : String
  content : String
deriving DecidableEq

/-- The `for msg in messages[1:]` loop of `collapse_messages`, carrying
`cur_msg`. -/
def collapseGo (cur : PayloadMsg) : List LlamaMessage → List PayloadMsg
  | [] => [cur]
  | msg :: rest =>
    if cur.role = msg.role then
      collapseGo ⟨cur.role, cur.content ++ "\n\n" ++ msg.content⟩ rest
    else
      cur :: collapseGo ⟨msg.role, msg.content⟩ rest

/-- `Llama.collapse_messages`; `messages[0]` raises `IndexError` on an empty
list, modelled as `none`. -/
def collapse_messages : List LlamaMessage → Option (List PayloadMsg)
  | [] => none
  | m :: rest => some (collapseGo ⟨m.role, m.content⟩ rest)

/-- Concatenation of the content fields of a payload. -/
def joinContents (l : List PayloadMsg) : String :=
  l.foldr (fun m acc => m.content ++ acc) ""

/-- Concatenation of the input contents, with the blank-line separator
inserted between adjacent same-role messages: the content actually carried by
the collapsed payload. -/
def gluedFrom (role : String) : List LlamaMessage → String
  | [] => ""
  | m :: rest =>
    (if role = m.role then "\n\n" else "") ++ m.content ++ gluedFrom m.role rest

/-- Total glued content of a message list. -/
def glued : List LlamaMessage → String
  | [] => ""
  | m :: rest => m.content ++ gluedFrom m.role rest

/-! ## `Llama.complete_chat` prompt assembly (src/llama.py, lines 252-309) -/

/-- The system-prompt template text before the `{documents}` placeholder. -/
def sysPromptPre : String :=
  "        Your role is to assist users in finding relevant information based on their query and provided documents.\n        Do not use markdown syntax like ``` for code blocks.\n        Here are the relevant documents:\n        "

/-- The template text between `{documents}` and `{summary_part}`. -/
def sysPromptMid : String := "\n        \n        "

/-- The template text after `{summary_part}`. -/
def sysPromptPost : String :=
  "\n\n        Please respond to the user's query below. At the beginning of every response, please add this warning - *This chatbot is an experimental feature, kindly verify resources before proceeding.*\n        "

/-- `summary_part` in `complete_chat`. -/
def summary_part_of (summary_content : String) : String :=
  "\nBelow is a summary of the past conversation." ++
    "\nIf the user seems to be referring to something from the past conversation, you should use the latter parts of the summary as context, since those are the more recent messages.\n" ++
    "<summary>\n" ++ summary_content ++ "\n</summary>\n"

/-- The formatted system prompt of `complete_chat`: `summary_part` is
interpolated only when `summary_content` is truthy (non-empty). -/
def complete_chat_system_prompt (doc_text summary_content : String) : String :=
  sysPromptPre ++ doc_text ++ sysPromptMid ++
    (if summary_content = "" then "" else summary_part_of summary_content) ++
    sysPromptPost

/-- The message payload sent by `complete_chat`:
`collapse_messages([system, prompt_msg])`. -/
def complete_chat_payload (prompt_msg : LlamaMessage) (doc_text summary_content : String) :
    Option (List PayloadMsg) :=
  collapse_messages
    [⟨complete_chat_system_prompt doc_text summary_content, "system", none⟩, prompt_msg]

/-! ## `Llama.generateprompt_on_course` (src/llama.py, lines 325-452) -/

/-- One entry of `codio_context["files"]`. -/
structure CodioFile where
  path : String
  content : String

/-- The fields of `codio_context` read by `generateprompt_on_course`. -/
structure CodioContext where
  guidesPageContent : String
  assignmentName : String
  userName : String
  files : List CodioFile
  errorState : Bool
  errorText : String

/-- `file['path'].split('.')[-1] == 'py'`. -/
def isPyFile (f : CodioFile) : Bool :=
  (splitOnChar '.' f.path.data).getLast? = some "py".data

/-- The `file_text` accumulation loop. -/
def file_text : List CodioFile → String
  | [] => ""
  | f :: rest =>
    if isPyFile f then f.content ++ file_text rest else file_text rest

/-- The static `directory_map` lookup of `get_solution_text`:
`directory_map.get(str(course_id), {}).get(assignment_name, '')`. -/
def get_solution_directory (course_id : Int) (assignment_name : String) : String :=
  if course_id = 987654 then
    if assignment_name = "Palindrome Number" then "FinalFiles/Easy_Question_with_solution.md"
    else if assignment_name = "Integer to Roman" then "FinalFiles/Medium_Question_with_solution.md"
    else if assignment_name = "Text Justification" then "FinalFiles/Hard_Question_with_solution.md"
    else ""
  else if course_id = 876543 then
    if assignment_name = "Palindrome Number" then "FinalFiles2/Easy_Question_Direct_Solution.md"
    else if assignment_name = "Integer to Roman" then "FinalFiles2/Medium_Question_Direct_Solution.md"
    else if assignment_name = "Text Justification" then "FinalFiles2/Hard_Question_Direct_Solution.md"
    else ""
  else if course_id = 529762 then
    if assignment_name = "Coding Exercises" then "FinalFiles3/Coding_Exercises.md"
    else ""
  else ""

/-- `Llama.get_solution_text`: any failure to read the file (including the
empty path of an unknown course/assignment) is caught and yields `""`.
`readFile` abstracts the filesystem. -/
def get_solution_text (readFile : String → Option String)
    (assignment_name : String) (course_id : Int) : String :=
  match readFile (get_solution_directory course_id assignment_name) with
  | some content => content
  | none => ""

/-- The file-listing context block (src/llama.py lines 402 and 428). -/
def filesIntro : String :=
  "\n\nThe following are files. They may contain code written by the user.\nIf the student is asking about errors or bugs in their code, reference these files:\n"

/-- The solution-comparison rubric appended for courses 987654/876543
(src/llama.py line 410). -/
def rubricText : String :=
  "                Your goals:\n                    1. Determine whether the student’s logic is **fully correct**, **partially correct**, or **incorrect**, based primarily on the assignment instructions.\n                    2. Identify **any missing, incorrect, or unnecessary steps** that could cause the logic to fail or behave unexpectedly.\n                    3. Provide **constructive guidance** that:\n                        - Respects the student’s chosen logic and structure.\n                        - Suggests improvements **within their current approach**, rather than rewriting it to match the reference.\n                        - Uses the reference only for subtle checks like corner cases or formatting, not to enforce code structure.\n                    4. Do **not** encourage or suggest copying or exactly replicating the reference logic.\n                    5. Limit the response to 50 words or fewer.\n                    6. Format the response clearly for easy readability.\n\n                Use your explanation to:\n                    - Correct logical flaws.\n                    - Point out better alternatives **only if necessary for correctness or clarity**.\n                    - Help the student progress with their own logic style.\n            "

/-- The guided-mode instruction block of the default branch
(src/llama.py line 430). -/
def guidedInstructions : String :=
  "\n                Instructions for response:\n\n                Do not provide full solutions.\n\n                Break down problems into clear, logical steps.\n\n                Encourage critical thinking when appropriate.\n\n                Limit the response to 50 words or fewer.\n\n                Format the response clearly for easy readability.\n            "

/-- The error-message context block (src/llama.py line 445). -/
def errorIntro : String := "\n\nThe following is the student's error message:\n"

/-- The formatted header of `doc_text` (src/llama.py lines 383-394). -/
def docHeader (ctx : CodioContext) : String :=
  "            The student's name is " ++ ctx.userName ++
    "\n\n            The following is the assignment text.\n            If the student has questions about understanding the assignment, use this content:\n            " ++
    ctx.guidesPageContent ++ "\n        "

/-- `Llama.generateprompt_on_course`, the `doc_text` it builds.  `readFile`
abstracts the filesystem and `nl` the `generate_natural_language` LLM call;
the summary component of the return value is modelled with the summary-store
parameters of `generate_response` below. -/
def generateprompt_on_course (readFile : String → Option String) (nl : String → String)
    (ctx : CodioContext) (course_id : Int) : String :=
  let solution_text := get_solution_text readFile ctx.assignmentName course_id
  let response_text :=
    if solution_text ≠ "" then "Based on Solution Document:\n" ++ solution_text ++ "\n\n"
    else "No Solution documents found in the database."
  let ft := file_text ctx.files
  let doc0 := docHeader ctx
  let doc1 :=
    if course_id = 987654 then
      doc0 ++ "\n\nThe following is a natural language description of the student's code:\n" ++ nl ft
    else if course_id = 876543 then
      doc0 ++ filesIntro ++ ft
    else doc0
  let doc2 :=
    if course_id = 987654 ∨ course_id = 876543 then
      doc1 ++ "\n\nThe following are relevant solution documents retrieved based on semantic similarity to the assignment:\n" ++
        response_text ++ rubricText
    else
      doc1 ++ filesIntro ++ ft ++ guidedInstructions
  if ctx.errorState then doc2 ++ errorIntro ++ ctx.errorText else doc2

/-- The default guided, no-solutions mode of the spec: the `doc_text` built
by the branch taken for a course id outside the static course→mode table. -/
def guided_mode_doc (ctx : CodioContext) : String :=
  let doc := docHeader ctx ++ filesIntro ++ file_text ctx.files ++ guidedInstructions
  if ctx.errorState then doc ++ errorIntro ++ ctx.errorText else doc

/-! ## `Llama.generate_response` (src/llama.py, lines 219-250) -/

/-- Python `"\n".join`. -/
def joinNL : List String → String
  | [] => ""
  | [x] => x
  | x :: rest => x ++ "\n" ++ joinNL rest

/-- The `response_text` document block of `generate_response`: the similar
documents joined by newlines, or the not-found marker when the retrieval
result is empty. -/
def generate_response_doc_text (similar_docs : List (String × Int)) : String :=
  match similar_docs with
  | [] => "No relevant documents found in the database."
  | _ => "Based on relevant documents:\n" ++ joinNL (similar_docs.map (·.1)) ++ "\n\n"

/-- The external collaborators of the pipeline, abstracted: the embedding
endpoint, the document store, the summary store over an abstract store state
`σ` (get-or-create and persist), the completion endpoint, and the
summarization completion of `update_summary`. -/
structure PipelineEnv (σ : Type) where
  embed : String → List Int
  findDocs : Int → List Int → List (String × Int)
  getSummary : Int → Int → σ → String × σ
  llm : List PayloadMsg → String
  newSummary : String → String → String → String
  putSummary : Int → Int → String → σ → σ

/-- `Llama.generate_response`: retrieval, optional summary get-or-create
(`if user_id:` — falsy for `None` and `0`), completion, and optional
post-completion summary update.  Returns the response text and the summary
store after the call. -/
def generate_response {σ : Type} (env : PipelineEnv σ) (prompt : String)
    (course_id : Int) (user_id : Option Int) (store : σ) : Option (String × σ) :=
  let similar_docs := env.findDocs course_id (env.embed prompt)
  let response_text := generate_response_doc_text similar_docs
  match user_id with
  | some uid =>
    if uid ≠ 0 then
      let fetched := env.getSummary uid course_id store
      match complete_chat_payload ⟨prompt, "user", none⟩ response_text fetched.1 with
      | none => none
      | some payload =>
        let rtext := env.llm payload
        some (rtext, env.putSummary uid course_id (env.newSummary fetched.1 prompt rtext) fetched.2)
    else
      match complete_chat_payload ⟨prompt, "user", none⟩ response_text "" with
      | none => none
      | some payload => some (env.llm payload, store)
  | none =>
    match complete_chat_payload ⟨prompt, "user", none⟩ response_text "" with
    | none => none
    | some payload => some (env.llm payload, store)

/-! ## Derived statement-level definitions -/

/-- Python `needle in hay` on strings. -/
def strContains (needle hay : String) : Bool :=
  containsSub needle.data hay.data

/-- The response obtained from the first reissue of the policy loop. -/
def reissue1 (complete : Nat → String → String) (resp : String) : String :=
  complete 0 (retry_prompt_content (count_code_lines resp))

/-- The response obtained from the second reissue of the policy loop. -/
def reissue2 (complete : Nat → String → String) (resp : String) : String :=
  complete 1 (retry_prompt_content (count_code_lines (reissue1 complete resp)))
/-- A completion text with six code-like lines, exercising the policy
threshold. -/
def sixCodeLines : String := "def a\ndef b\ndef c\ndef d\ndef e\ndef f"

/-- A trivial collaborator environment over a unit summary store. -/
def unitEnv : PipelineEnv Unit :=
  ⟨fun _ => [], fun _ _ => [], fun _ _ s => ("S", s), fun _ => "R",
   fun _ _ _ => "N", fun _ _ _ s => s⟩

/-- An empty request context. -/
def emptyCtx : CodioContext := ⟨"", "", "", [], false, ""⟩

/-! ### Lemmas about line splitting and the scan -/

theorem splitOnChar_ne_nil (sep : Char) (l : List Char) : splitOnChar sep l ≠ [] := by
  cases l with
  | nil => simp [splitOnChar]
  | cons c rest =>
    simp only [splitOnChar]
    split
    · simp
    · split
      · simp
      · simp

theorem splitOnChar_append_sep (sep : Char) (u v : List Char) :
    splitOnChar sep (u ++ sep :: v) = splitOnChar sep u ++ splitOnChar sep v := by
  induction u with
  | nil => simp [splitOnChar]
  | cons c u ih =>
    by_cases hc : c = sep
    · subst hc
      simp [splitOnChar, ih]
    · simp only [List.cons_append, splitOnChar, if_neg hc, List.append_eq]
      rw [ih]
      cases h : splitOnChar sep u with
      | nil => exact absurd h (splitOnChar_ne_nil sep u)
      | cons l ls => simp

theorem splitOnChar_no_sep (sep : Char) (l : List Char) (h : sep ∉ l) :
    splitOnChar sep l = [l] := by
  induction l with
  | nil => rfl
  | cons c rest ih =>
    simp only [List.mem_cons, not_or] at h
    have hc : ¬ c = sep := fun hcs => h.1 hcs.symm
    simp only [splitOnChar, if_neg hc, ih h.2]

theorem dropFinalEmpty_append (a b : List (List Char)) (hb : b ≠ []) :
    dropFinalEmpty (a ++ b) = a ++ dropFinalEmpty b := by
  unfold dropFinalEmpty
  rw [List.getLast?_append_of_ne_nil a hb, List.dropLast_append_of_ne_nil _ hb]
  split <;> simp

theorem pySplitlines_append_complete (u v : List Char) :
    pySplitlines (u ++ '\n' :: v) = splitOnChar '\n' u ++ pySplitlines v := by
  unfold pySplitlines splitOnNL
  rw [splitOnChar_append_sep, dropFinalEmpty_append _ _ (splitOnChar_ne_nil '\n' v)]

theorem pySplitlines_terminated (u : List Char) :
    pySplitlines (u ++ ['\n']) = splitOnChar '\n' u := by
  rw [pySplitlines_append_complete u []]
  simp [pySplitlines, splitOnNL, splitOnChar, dropFinalEmpty]

theorem countLines_append (flag : Bool) (l1 l2 : List (List Char)) :
    countLines flag (l1 ++ l2) =
      countLines flag l1 + countLines (flagAfter flag l1) l2 := by
  induction l1 generalizing flag with
  | nil => simp [countLines, flagAfter]
  | cons line rest ih =>
    simp only [List.cons_append, countLines, flagAfter, List.append_eq]
    by_cases hfence : containsSub fenceMarker line = true
    · simp only [if_pos hfence, ih]
    · simp only [if_neg hfence]
      by_cases hcode : (flag || startsWithCodeToken line) = true
      · simp only [if_pos hcode, ih]; omega
      · simp only [if_neg hcode, ih]


/-! ### Substring containment lemmas -/

theorem isPrefixOf_self_append (p b : List Char) : p.isPrefixOf (p ++ b) = true := by
  induction p with
  | nil => simp [List.isPrefixOf]
  | cons c rest ih => simp [List.isPrefixOf, ih]

theorem isPrefixOf_append_right (p l b : List Char) (h : p.isPrefixOf l = true) :
    p.isPrefixOf (l ++ b) = true := by
  induction p generalizing l with
  | nil => simp [List.isPrefixOf]
  | cons c rest ih =>
    cases l with
    | nil => simp [List.isPrefixOf] at h
    | cons x xs =>
      simp only [List.isPrefixOf, Bool.and_eq_true, beq_iff_eq] at h ⊢
      exact ⟨h.1, ih xs h.2⟩

theorem containsSub_nil_needle (l : List Char) : containsSub [] l = true := by
  cases l <;> simp [containsSub, List.isPrefixOf]

theorem containsSub_self_append (p b : List Char) : containsSub p (p ++ b) = true := by
  cases p with
  | nil => exact containsSub_nil_needle b
  | cons c rest =>
    simp only [List.cons_append, containsSub, Bool.or_eq_true]
    exact Or.inl (isPrefixOf_self_append (c :: rest) b)

theorem containsSub_append_right (p a b : List Char) (h : containsSub p b = true) :
    containsSub p (a ++ b) = true := by
  induction a with
  | nil => exact h
  | cons c rest ih =>
    simp only [List.cons_append, containsSub, Bool.or_eq_true]
    exact Or.inr ih

theorem containsSub_append_left (p a b : List Char) (h : containsSub p a = true) :
    containsSub p (a ++ b) = true := by
  induction a with
  | nil =>
    cases p with
    | nil => exact containsSub_nil_needle b
    | cons c rest => simp [containsSub, List.isPrefixOf] at h
  | cons c rest ih =>
    simp only [containsSub, Bool.or_eq_true] at h
    simp only [List.cons_append, containsSub, Bool.or_eq_true]
    cases h with
    | inl hp => exact Or.inl (isPrefixOf_append_right _ _ _ hp)
    | inr hc => exact Or.inr (ih hc)

theorem containsSub_middle (p a b : List Char) : containsSub p (a ++ (p ++ b)) = true :=
  containsSub_append_right p a _ (containsSub_self_append p b)

/-! ### `collapse_messages` lemmas -/

theorem collapseGo_length (cur : PayloadMsg) (ms : List LlamaMessage) :
    (collapseGo cur ms).length ≤ ms.length + 1 := by
  induction ms generalizing cur with
  | nil => simp [collapseGo]
  | cons msg rest ih =>
    simp only [collapseGo]
    split
    · exact Nat.le_trans (ih _) (by simp)
    · simpa using ih ⟨msg.role, msg.content⟩

theorem collapseGo_contents (cur : PayloadMsg) (ms : List LlamaMessage) :
    joinContents (collapseGo cur ms) = cur.content ++ gluedFrom cur.role ms := by
  induction ms generalizing cur with
  | nil => simp [collapseGo, joinContents, gluedFrom]
  | cons msg rest ih =>
    simp only [collapseGo, gluedFrom]
    split
    · rename_i hrole
      rw [ih]
      simp [hrole, String.append_assoc]
    · rename_i hrole
      have hcons : joinContents (cur :: collapseGo ⟨msg.role, msg.content⟩ rest) =
          cur.content ++ joinContents (collapseGo ⟨msg.role, msg.content⟩ rest) := rfl
      rw [hcons, ih]
      simp [String.append_assoc, String.empty_append]

theorem collapseGo_merge (a b : LlamaMessage) (hab : a.role = b.role) :
    ∀ (pre : List LlamaMessage) (post : List LlamaMessage) (cur : PayloadMsg),
      collapseGo cur (pre ++ a :: b :: post) =
        collapseGo cur (pre ++ (⟨a.content ++ "\n\n" ++ b.content, a.role, a.name⟩ : LlamaMessage) :: post) := by
  have hstep : ∀ (c : PayloadMsg) (m : LlamaMessage) (r : List LlamaMessage),
      collapseGo c (m :: r) =
        if c.role = m.role then collapseGo ⟨c.role, c.content ++ "\n\n" ++ m.content⟩ r
        else c :: collapseGo ⟨m.role, m.content⟩ r := fun _ _ _ => rfl
  intro pre
  induction pre with
  | nil =>
    intro post cur
    simp only [List.nil_append, hstep]
    by_cases hc : cur.role = a.role
    · rw [if_pos hc, if_pos hc, if_pos (hc.trans hab)]
      simp [String.append_assoc]
    · rw [if_neg hc, if_neg hc, if_pos hab]
  | cons p pre ih =>
    intro post cur
    simp only [List.cons_append, hstep]
    by_cases hc : cur.role = p.role
    · rw [if_pos hc, if_pos hc]
      exact ih post _
    · rw [if_neg hc, if_neg hc]
      exact congrArg (fun l => cur :: l) (ih post _)

/-! ### Policy-loop lemmas -/

theorem ask_code_loop_stop (c : Nat → String → String) (u : Bool) (resp : String) (r : Nat)
    (h : ¬ count_code_lines resp > max_code_lines) :
    ask_code_loop c u resp r = ⟨resp, r, [], if u then [resp] else []⟩ := by
  rw [ask_code_loop]
  simp [h]

theorem ask_code_loop_exhaust (c : Nat → String → String) (u : Bool) (resp : String) (r : Nat)
    (h : count_code_lines resp > max_code_lines) (hr : max_retries ≤ r) :
    ask_code_loop c u resp r = ⟨resp, r, [], if u then [resp] else []⟩ := by
  rw [ask_code_loop]
  simp [h, hr]

theorem ask_code_loop_step (c : Nat → String → String) (u : Bool) (resp : String) (r : Nat)
    (h : count_code_lines resp > max_code_lines) (hr : r < max_retries) :
    ask_code_loop c u resp r =
      ⟨(ask_code_loop c u (c r (retry_prompt_content (count_code_lines resp))) (r + 1)).response,
       (ask_code_loop c u (c r (retry_prompt_content (count_code_lines resp))) (r + 1)).retries,
       retry_prompt_content (count_code_lines resp) ::
         (ask_code_loop c u (c r (retry_prompt_content (count_code_lines resp))) (r + 1)).prompts,
       (if u then [resp] else []) ++
         (ask_code_loop c u (c r (retry_prompt_content (count_code_lines resp))) (r + 1)).summaryUpdates⟩ := by
  rw [ask_code_loop]
  simp [h, Nat.not_le.mpr hr]

theorem ask_code_loop_inv2 (c : Nat → String → String) (u : Bool) (resp : String) :
    (ask_code_loop c u resp 2).retries ≤ max_retries ∧
    (ask_code_loop c u resp 2).prompts.length + 2 = (ask_code_loop c u resp 2).retries := by
  by_cases h : count_code_lines resp > max_code_lines
  · rw [ask_code_loop_exhaust c u resp 2 h (by simp [max_retries])]
    simp [max_retries]
  · rw [ask_code_loop_stop c u resp 2 h]
    simp [max_retries]

theorem ask_code_loop_inv1 (c : Nat → String → String) (u : Bool) (resp : String) :
    (ask_code_loop c u resp 1).retries ≤ max_retries ∧
    (ask_code_loop c u resp 1).prompts.length + 1 = (ask_code_loop c u resp 1).retries := by
  by_cases h : count_code_lines resp > max_code_lines
  · rw [ask_code_loop_step c u resp 1 h (by simp [max_retries])]
    have h2 := ask_code_loop_inv2 c u (c 1 (retry_prompt_content (count_code_lines resp)))
    obtain ⟨h2a, h2b⟩ := h2
    constructor
    · simpa using h2a
    · simp only [List.length_cons, show (1 : Nat) + 1 = 2 from rfl]
      omega
  · rw [ask_code_loop_stop c u resp 1 h]
    simp [max_retries]

theorem ask_code_loop_inv0 (c : Nat → String → String) (u : Bool) (resp : String) :
    (ask_code_loop c u resp 0).retries ≤ max_retries ∧
    (ask_code_loop c u resp 0).prompts.length + 0 = (ask_code_loop c u resp 0).retries := by
  by_cases h : count_code_lines resp > max_code_lines
  · rw [ask_code_loop_step c u resp 0 h (by simp [max_retries])]
    have h1 := ask_code_loop_inv1 c u (c 0 (retry_prompt_content (count_code_lines resp)))
    obtain ⟨h1a, h1b⟩ := h1
    constructor
    · simpa using h1a
    · simp only [List.length_cons, show (0 : Nat) + 1 = 1 from rfl]
      omega
  · rw [ask_code_loop_stop c u resp 0 h]
    simp [max_retries]

/-! ## Claim theorems -/

/-- C3: `count_code_lines` scans line by line with an in-fence flag flipped
by every line containing a triple-backtick marker, and counts a line exactly
when the flag is set or the stripped line starts with one of the listed
code-like tokens; on a text with one fenced block of 3 code lines and 2
prose lines outside, it returns 3. -/
theorem count_code_lines_scan_spec :
    (∀ (flag : Bool) (line : List Char) (rest : List (List Char)),
        countLines flag (line :: rest) =
          if containsSub fenceMarker line then countLines (!flag) rest
          else if flag || startsWithCodeToken line then 1 + countLines flag rest
          else countLines flag rest) ∧
    (∀ text : String, count_code_lines text = countLines false (pySplitlines text.data)) ∧
    count_code_lines "Here is prose\n```\nx = 1\ny = 2\nz = 3\n```\nMore prose" = 3 :=
  ⟨fun _ _ _ => rfl, fun _ => rfl, by decide⟩

/-- C8: rescanning the same text yields the same count, and when a text
ending in a complete line is extended with further lines the count never
decreases. -/
theorem count_code_lines_monotone_spec :
    ∀ (t s : String), (∃ u, t.data = u ++ ['\n']) →
      count_code_lines t = countLines false (pySplitlines t.data) ∧
      count_code_lines t ≤ count_code_lines (t ++ s) := by
  intro t s h
  refine ⟨rfl, ?_⟩
  obtain ⟨u, hu⟩ := h
  have hdata : (t ++ s).data = u ++ '\n' :: s.data := by
    rw [String.data_append, hu, List.append_assoc]
    rfl
  show countLines false (pySplitlines t.data) ≤ countLines false (pySplitlines (t ++ s).data)
  rw [hdata, hu, pySplitlines_terminated, pySplitlines_append_complete, countLines_append]
  exact Nat.le_add_right _ _

/-- Witness for C8 at `t = "def f():\n"`, `s = "x = 1\nreturn x"`. -/
theorem count_code_lines_monotone_spec_witness :
    count_code_lines "def f():\n" = countLines false (pySplitlines "def f():\n".data) ∧
    count_code_lines "def f():\n" ≤ count_code_lines ("def f():\n" ++ "x = 1\nreturn x") :=
  count_code_lines_monotone_spec "def f():\n" "x = 1\nreturn x" ⟨"def f():".data, by decide⟩

/-- C9: a line containing the triple-backtick marker is never itself
counted: it only toggles the fence flag and is skipped, even when it starts
with a code-like token or occurs inside a fenced block. -/
theorem count_code_lines_fence_line_spec :
    (∀ (flag : Bool) (line : List Char) (rest : List (List Char)),
        containsSub fenceMarker line = true →
        countLines flag (line :: rest) = countLines (!flag) rest) ∧
    (∀ (line t : List Char), containsSub fenceMarker line = true → '\n' ∉ line →
        count_code_lines ⟨line ++ '\n' :: t⟩ = countLines true (pySplitlines t)) := by
  constructor
  · intro flag line rest h
    simp [countLines, h]
  · intro line t hf hn
    show countLines false (pySplitlines (line ++ '\n' :: t)) = _
    rw [pySplitlines_append_complete, splitOnChar_no_sep _ _ hn]
    simp [countLines, hf]

/-- Witness for C9: a fence line that also starts with a code-like token
(`@`) toggles the flag and is not counted, both outside and inside a
block. -/
theorem count_code_lines_fence_line_spec_witness :
    (countLines true ["@``` ".data] = countLines false []) ∧
    count_code_lines ⟨"@``` ".data ++ '\n' :: "hello".data⟩ =
      countLines true (pySplitlines "hello".data) :=
  ⟨(count_code_lines_fence_line_spec).1 true "@``` ".data [] (by decide) |>.trans (by decide),
   (count_code_lines_fence_line_spec).2 "@``` ".data "hello".data (by decide) (by decide)⟩

/-- C4 counterexample: merging two same-role messages inserts the blank-line
separator, so the concatenation of the output contents is not the
concatenation of the input contents. -/
theorem collapse_messages_concat_counterexample :
    collapse_messages [⟨"a", "user", none⟩, ⟨"b", "user", none⟩] =
      some [⟨"user", "a\n\nb"⟩] ∧
    joinContents [⟨"user", "a\n\nb"⟩] ≠ "a" ++ "b" := by
  constructor
  · rfl
  · decide

/-- C4 (amended): on a nonempty message list `collapse_messages` returns at
most as many entries as the input, the concatenation of the output contents
equals the input contents glued with a blank-line separator between adjacent
same-role messages, and pre-merging any adjacent same-role pair with that
separator leaves the result unchanged. -/
theorem collapse_messages_spec :
    (∀ (ms : List LlamaMessage) (out : List PayloadMsg),
        collapse_messages ms = some out →
        out.length ≤ ms.length ∧ joinContents out = glued ms) ∧
    (∀ (pre post : List LlamaMessage) (a b : LlamaMessage),
        a.role = b.role →
        collapse_messages (pre ++ a :: b :: post) =
          collapse_messages
            (pre ++ (⟨a.content ++ "\n\n" ++ b.content, a.role, a.name⟩ : LlamaMessage) :: post)) := by
  constructor
  · intro ms out h
    cases ms with
    | nil => simp [collapse_messages] at h
    | cons m rest =>
      simp only [collapse_messages, Option.some.injEq] at h
      subst h
      constructor
      · simpa using collapseGo_length ⟨m.role, m.content⟩ rest
      · rw [collapseGo_contents]
        rfl
  · intro pre post a b hab
    cases pre with
    | nil =>
      simp only [List.nil_append, collapse_messages, Option.some.injEq]
      rw [show collapseGo ⟨a.role, a.content⟩ (b :: post) =
            if a.role = b.role then
              collapseGo ⟨a.role, a.content ++ "\n\n" ++ b.content⟩ post
            else ⟨a.role, a.content⟩ :: collapseGo ⟨b.role, b.content⟩ post from rfl,
          if_pos hab]
    | cons p pre' =>
      simp only [List.cons_append, collapse_messages, Option.some.injEq]
      exact collapseGo_merge a b hab pre' post ⟨p.role, p.content⟩

/-- Witness for C4 at concrete message lists. -/
theorem collapse_messages_spec_witness :
    ([(⟨"user", "a"⟩ : PayloadMsg), ⟨"assistant", "b"⟩].length ≤
        [(⟨"a", "user", none⟩ : LlamaMessage), ⟨"b", "assistant", none⟩].length ∧
      joinContents [(⟨"user", "a"⟩ : PayloadMsg), ⟨"assistant", "b"⟩] =
        glued [(⟨"a", "user", none⟩ : LlamaMessage), ⟨"b", "assistant", none⟩]) ∧
    collapse_messages
        ([] ++ (⟨"x", "user", none⟩ : LlamaMessage) :: (⟨"y", "user", none⟩ : LlamaMessage) :: []) =
      collapse_messages ([] ++ (⟨"x" ++ "\n\n" ++ "y", "user", none⟩ : LlamaMessage) :: []) :=
  ⟨collapse_messages_spec.1 [⟨"a", "user", none⟩, ⟨"b", "assistant", none⟩]
      [⟨"user", "a"⟩, ⟨"assistant", "b"⟩] (by rfl),
   collapse_messages_spec.2 [] [] ⟨"x", "user", none⟩ ⟨"y", "user", none⟩ (by rfl)⟩

/-- C2 counterexample: the line `{"choices": []}` is valid JSON with an
unexpected structure, yet it is not skipped: `choices[0]` raises an uncaught
`IndexError` that aborts the extraction, losing the well-formed line that
follows. -/
theorem extract_content_aborts_on_empty_choices :
    extract_content
        "\x7b\"choices\": []\x7d\ndata: \x7b\"choices\": [\x7b\"delta\": \x7b\"content\": \"hi\"\x7d\x7d]\x7d" =
      Except.error PyErr.indexError := by
  rfl

/-- C2 (amended): a line that fails JSON parsing or whose lookup raises
`KeyError` is silently skipped without aborting the following lines, and the
extracted content fields are concatenated in line order; but a line whose
parsed JSON is structurally unexpected in another way (non-object top level,
empty `choices`, non-dict `delta`) raises an uncaught error that aborts the
whole extraction. -/
theorem extract_content_skip_spec :
    (∀ (pre post : List (List Char)) (bad : List Char),
        (extract_line bad = .error .jsonDecodeError ∨ extract_line bad = .error .keyError) →
        extract_lines (pre ++ bad :: post) = extract_lines (pre ++ post)) ∧
    (∀ (lines contents : List (List Char)),
        List.Forall₂ (fun line c => extract_line line = .ok (some (.str c))) lines contents →
        extract_lines lines = .ok (contents.map PyJson.str)) ∧
    (∀ contents : List (List Char),
        pyJoinStrs (contents.map PyJson.str) = .ok (contents.foldr (· ++ ·) [])) ∧
    extract_content
        "data: \x7b\"choices\": [\x7b\"delta\": \x7b\"content\": \"Hello \"\x7d\x7d]\x7d\nnoise line\ndata: \x7b\"choices\": [\x7b\"delta\": \x7b\"content\": \"world\"\x7d\x7d]\x7d" =
      .ok "Hello world" := by
  refine ⟨?_, ?_, ?_, by rfl⟩
  · intro pre post bad h
    induction pre with
    | nil =>
      rcases h with h | h <;> simp [extract_lines, h]
    | cons x pre ih =>
      simp only [List.cons_append, extract_lines]
      cases hx : extract_line x with
      | error e => cases e <;> simp [ih]
      | ok c =>
        cases c with
        | none => simpa using ih
        | some v => simp only [List.append_eq, ih]
  · intro lines contents h
    induction h with
    | nil => rfl
    | cons hx hrest ih =>
      simp [extract_lines, hx, ih]
  · intro contents
    induction contents with
    | nil => rfl
    | cons c rest ih => simp [pyJoinStrs, ih]

/-- Witness for C2 at a malformed line between two well-formed lines. -/
theorem extract_content_skip_spec_witness :
    extract_lines ([] ++ "noise line".data :: []) = extract_lines ([] ++ []) ∧
    extract_lines ["data: \x7b\"choices\": [\x7b\"delta\": \x7b\"content\": \"A\"\x7d\x7d]\x7d".data] =
      .ok (["A".data].map PyJson.str) :=
  ⟨extract_content_skip_spec.1 [] [] "noise line".data (Or.inl (by rfl)),
   extract_content_skip_spec.2.1
     ["data: \x7b\"choices\": [\x7b\"delta\": \x7b\"content\": \"A\"\x7d\x7d]\x7d".data]
     ["A".data] (List.Forall₂.cons (by rfl) List.Forall₂.nil)⟩

set_option maxRecDepth 40000 in
/-- C5: a course id outside the static course→mode table selects the default
guided mode: the prompt is exactly the guided-mode document (independent of
the filesystem and of the natural-language oracle), it embeds the submitted
file contents and the no-full-solutions and ≤50-word instructions, and the
solution-comparison rubric is absent from the guided-mode document. -/
theorem generateprompt_unknown_course_spec :
    ∀ (readFile readFile' : String → Option String) (nl nl' : String → String)
      (ctx : CodioContext) (course_id : Int),
      course_id ≠ 987654 → course_id ≠ 876543 →
      generateprompt_on_course readFile nl ctx course_id = guided_mode_doc ctx ∧
      generateprompt_on_course readFile nl ctx course_id =
        generateprompt_on_course readFile' nl' ctx course_id ∧
      strContains (file_text ctx.files) (generateprompt_on_course readFile nl ctx course_id) = true ∧
      strContains "Do not provide full solutions."
        (generateprompt_on_course readFile nl ctx course_id) = true ∧
      strContains "Limit the response to 50 words or fewer."
        (generateprompt_on_course readFile nl ctx course_id) = true ∧
      strContains "fully correct" (guided_mode_doc emptyCtx) = false := by
  intro readFile readFile' nl nl' ctx cid h1 h2
  have hmain : generateprompt_on_course readFile nl ctx cid = guided_mode_doc ctx := by
    unfold generateprompt_on_course guided_mode_doc
    simp [h1, h2]
  have hmain' : generateprompt_on_course readFile' nl' ctx cid = guided_mode_doc ctx := by
    unfold generateprompt_on_course guided_mode_doc
    simp [h1, h2]
  refine ⟨hmain, hmain.trans hmain'.symm, ?_, ?_, ?_, by decide⟩
  · rw [hmain]
    unfold guided_mode_doc strContains
    cases herr : ctx.errorState <;>
      simp only [if_pos rfl, if_neg, Bool.false_eq_true, not_false_eq_true, if_false, if_true,
        String.data_append, List.append_assoc] <;>
      (apply containsSub_append_right; apply containsSub_append_right;
       exact containsSub_self_append _ _)
  · rw [hmain]
    unfold guided_mode_doc strContains
    cases herr : ctx.errorState
    · simp only [Bool.false_eq_true, if_false, String.data_append, List.append_assoc]
      apply containsSub_append_right
      apply containsSub_append_right
      apply containsSub_append_right
      decide
    · simp only [if_true, String.data_append, List.append_assoc]
      apply containsSub_append_right
      apply containsSub_append_right
      apply containsSub_append_right
      apply containsSub_append_left
      decide
  · rw [hmain]
    unfold guided_mode_doc strContains
    cases herr : ctx.errorState
    · simp only [Bool.false_eq_true, if_false, String.data_append, List.append_assoc]
      apply containsSub_append_right
      apply containsSub_append_right
      apply containsSub_append_right
      decide
    · simp only [if_true, String.data_append, List.append_assoc]
      apply containsSub_append_right
      apply containsSub_append_right
      apply containsSub_append_right
      apply containsSub_append_left
      decide

/-- Witness for C5 at the unknown course id 0. -/
theorem generateprompt_unknown_course_spec_witness :
    generateprompt_on_course (fun _ => none) (fun _ => "") emptyCtx 0 = guided_mode_doc emptyCtx :=
  (generateprompt_unknown_course_spec (fun _ => none) (fun _ => none)
      (fun _ => "") (fun _ => "") emptyCtx 0 (by decide) (by decide)).1

/-- C6: when document retrieval returns the empty list, `generate_response`
builds the literal not-found marker text instead of an empty documents
block, the marker reaches the assembled system prompt, and the call
succeeds (the empty retrieval result is no failure). -/
theorem generate_response_empty_docs_spec :
    ∀ (σ : Type) (env : PipelineEnv σ) (prompt : String) (course_id : Int)
      (user_id : Option Int) (store : σ) (summary : String),
      env.findDocs course_id (env.embed prompt) = [] →
      generate_response_doc_text (env.findDocs course_id (env.embed prompt)) =
        "No relevant documents found in the database." ∧
      strContains "No relevant documents found"
        (complete_chat_system_prompt
          (generate_response_doc_text (env.findDocs course_id (env.embed prompt))) summary) = true ∧
      (generate_response env prompt course_id user_id store).isSome = true := by
  intro σ env prompt cid uid store summary h
  have hdoc : generate_response_doc_text (env.findDocs cid (env.embed prompt)) =
      "No relevant documents found in the database." := by
    rw [h]
    rfl
  refine ⟨hdoc, ?_, ?_⟩
  · rw [hdoc]
    unfold complete_chat_system_prompt strContains
    simp only [String.data_append, List.append_assoc]
    apply containsSub_append_right
    apply containsSub_append_left
    decide
  · unfold generate_response
    cases uid with
    | none => simp [complete_chat_payload, collapse_messages]
    | some n =>
      by_cases hn : n ≠ 0 <;> simp [hn, complete_chat_payload, collapse_messages]

/-- Witness for C6 with the trivial unit-store environment. -/
theorem generate_response_empty_docs_spec_witness :
    generate_response_doc_text (unitEnv.findDocs 1 (unitEnv.embed "q")) =
      "No relevant documents found in the database." ∧
    strContains "No relevant documents found"
      (complete_chat_system_prompt
        (generate_response_doc_text (unitEnv.findDocs 1 (unitEnv.embed "q"))) "") = true ∧
    (generate_response unitEnv "q" 1 none ()).isSome = true :=
  generate_response_empty_docs_spec Unit unitEnv "q" 1 none () "" (by rfl)

set_option maxRecDepth 40000 in
/-- C7: the system prompt carries the `<summary>` block exactly for a
non-empty summary content: with a non-empty summary the prompt decomposes
with the full summary block (which carries the `<summary>`/`</summary>`
tags) between the fixed middle and tail segments, with an empty summary the
block is omitted entirely, and the fixed template segments themselves carry
no summary tags; the documents segment and the rest of the prompt are the
same in both decompositions. -/
theorem complete_chat_summary_block_spec :
    ∀ (doc_text summary_content : String),
      (summary_content ≠ "" →
        complete_chat_system_prompt doc_text summary_content =
          sysPromptPre ++ doc_text ++ sysPromptMid ++
            summary_part_of summary_content ++ sysPromptPost ∧
        strContains "<summary>" (complete_chat_system_prompt doc_text summary_content) = true ∧
        strContains "</summary>" (complete_chat_system_prompt doc_text summary_content) = true) ∧
      complete_chat_system_prompt doc_text "" =
        sysPromptPre ++ doc_text ++ sysPromptMid ++ sysPromptPost ∧
      strContains "<summary>" (sysPromptPre ++ sysPromptMid ++ sysPromptPost) = false ∧
      strContains "</summary>" (sysPromptPre ++ sysPromptMid ++ sysPromptPost) = false := by
  intro doc s
  refine ⟨fun hs => ⟨?_, ?_, ?_⟩, ?_, by decide, by decide⟩
  · unfold complete_chat_system_prompt
    rw [if_neg hs]
  · unfold complete_chat_system_prompt strContains summary_part_of
    rw [if_neg hs]
    simp only [String.data_append, List.append_assoc]
    apply containsSub_append_right
    apply containsSub_append_right
    apply containsSub_append_right
    apply containsSub_append_right
    apply containsSub_append_right
    apply containsSub_append_left
    decide
  · unfold complete_chat_system_prompt strContains summary_part_of
    rw [if_neg hs]
    simp only [String.data_append, List.append_assoc]
    apply containsSub_append_right
    apply containsSub_append_right
    apply containsSub_append_right
    apply containsSub_append_right
    apply containsSub_append_right
    apply containsSub_append_right
    apply containsSub_append_right
    apply containsSub_append_left
    decide
  · unfold complete_chat_system_prompt
    rw [if_pos rfl, String.append_empty]

/-- Witness for C7 at a concrete non-empty summary. -/
theorem complete_chat_summary_block_spec_witness :
    complete_chat_system_prompt "DOCS" "SUM" =
      sysPromptPre ++ "DOCS" ++ sysPromptMid ++ summary_part_of "SUM" ++ sysPromptPost ∧
    strContains "<summary>" (complete_chat_system_prompt "DOCS" "SUM") = true ∧
    strContains "</summary>" (complete_chat_system_prompt "DOCS" "SUM") = true :=
  (complete_chat_summary_block_spec "DOCS" "SUM").1 (by decide)

/-- C10: a falsy user identity (`None` or `0`) disables all summary
handling: the store is returned unchanged and the completion payload is
built with an empty summary content; a truthy integer user id instead
triggers the get-or-create and the post-completion summary update. -/
theorem generate_response_falsy_user_spec :
    ∀ (σ : Type) (env : PipelineEnv σ) (prompt : String) (course_id : Int) (store : σ),
      (∀ user_id : Option Int, user_id = none ∨ user_id = some 0 →
        generate_response env prompt course_id user_id store =
          (complete_chat_payload ⟨prompt, "user", none⟩
              (generate_response_doc_text (env.findDocs course_id (env.embed prompt))) "").map
            (fun payload => (env.llm payload, store))) ∧
      (∀ uid : Int, uid ≠ 0 →
        generate_response env prompt course_id (some uid) store =
          (complete_chat_payload ⟨prompt, "user", none⟩
              (generate_response_doc_text (env.findDocs course_id (env.embed prompt)))
              (env.getSummary uid course_id store).1).map
            (fun payload =>
              (env.llm payload,
               env.putSummary uid course_id
                 (env.newSummary (env.getSummary uid course_id store).1 prompt (env.llm payload))
                 (env.getSummary uid course_id store).2))) := by
  intro σ env prompt cid store
  constructor
  · rintro uid (rfl | rfl)
    · unfold generate_response
      cases hp : complete_chat_payload ⟨prompt, "user", none⟩
          (generate_response_doc_text (env.findDocs cid (env.embed prompt))) "" with
      | none => simp [hp]
      | some p => simp [hp]
    · unfold generate_response
      cases hp : complete_chat_payload ⟨prompt, "user", none⟩
          (generate_response_doc_text (env.findDocs cid (env.embed prompt))) "" with
      | none => simp [hp]
      | some p => simp [hp]
  · intro uid hu
    unfold generate_response
    simp only [if_pos hu]
    cases hp : complete_chat_payload ⟨prompt, "user", none⟩
        (generate_response_doc_text (env.findDocs cid (env.embed prompt)))
        (env.getSummary uid cid store).1 with
    | none => simp [hp]
    | some p => simp [hp]

/-- Witness for C10 with the trivial unit-store environment: a `None` user
and user id `7`. -/
theorem generate_response_falsy_user_spec_witness :
    generate_response unitEnv "hello" 3 none () =
      (complete_chat_payload ⟨"hello", "user", none⟩
          (generate_response_doc_text (unitEnv.findDocs 3 (unitEnv.embed "hello"))) "").map
        (fun payload => (unitEnv.llm payload, ())) ∧
    generate_response unitEnv "hello" 3 (some 7) () =
      (complete_chat_payload ⟨"hello", "user", none⟩
          (generate_response_doc_text (unitEnv.findDocs 3 (unitEnv.embed "hello")))
          (unitEnv.getSummary 7 3 ()).1).map
        (fun payload =>
          (unitEnv.llm payload,
           unitEnv.putSummary 7 3
             (unitEnv.newSummary (unitEnv.getSummary 7 3 ()).1 "hello" (unitEnv.llm payload))
             (unitEnv.getSummary 7 3 ()).2)) :=
  ⟨(generate_response_falsy_user_spec Unit unitEnv "hello" 3 ()).1 none (Or.inl rfl),
   (generate_response_falsy_user_spec Unit unitEnv "hello" 3 ()).2 7 (by decide)⟩

/-- C1: in the `/ask-code` policy loop an over-threshold completion triggers
a reissue whose corrective message states the offending count and the
maximum allowed, the retry counter never exceeds 2 from any reachable
state, and when the response after the second reissue still exceeds the
threshold the loop stops and hands that last response to
`extract_content` without any error path. -/
theorem ask_code_policy_loop_spec :
    ∀ (complete : Nat → String → String) (useSummary : Bool) (resp : String),
      (∀ retries : Nat, retries ≤ max_retries →
        (ask_code_loop complete useSummary resp retries).retries ≤ max_retries ∧
        (ask_code_loop complete useSummary resp retries).prompts.length + retries =
          (ask_code_loop complete useSummary resp retries).retries) ∧
      (∀ n : Nat,
        strContains (toString n) (retry_prompt_content n) = true ∧
        strContains (toString max_code_lines) (retry_prompt_content n) = true) ∧
      (count_code_lines resp > max_code_lines →
       count_code_lines (reissue1 complete resp) > max_code_lines →
       count_code_lines (reissue2 complete resp) > max_code_lines →
        ask_code_loop complete useSummary resp 0 =
          ⟨reissue2 complete resp, max_retries,
           [retry_prompt_content (count_code_lines resp),
            retry_prompt_content (count_code_lines (reissue1 complete resp))],
           if useSummary then [resp, reissue1 complete resp, reissue2 complete resp] else []⟩ ∧
        extract_content (ask_code_loop complete useSummary resp 0).response =
          extract_content (reissue2 complete resp)) := by
  intro c u resp
  refine ⟨?_, ?_, ?_⟩
  · intro r hr
    have hr' : r = 0 ∨ r = 1 ∨ r = 2 := by
      simp only [max_retries] at hr
      omega
    rcases hr' with rfl | rfl | rfl
    · exact ask_code_loop_inv0 c u resp
    · exact ask_code_loop_inv1 c u resp
    · exact ask_code_loop_inv2 c u resp
  · intro n
    constructor
    · unfold strContains retry_prompt_content
      simp only [String.data_append, List.append_assoc]
      apply containsSub_append_right
      exact containsSub_self_append _ _
    · unfold strContains retry_prompt_content
      simp only [String.data_append, List.append_assoc]
      apply containsSub_append_right
      apply containsSub_append_right
      apply containsSub_append_right
      exact containsSub_self_append _ _
  · intro h0 h1 h2
    have e1 : c 0 (retry_prompt_content (count_code_lines resp)) = reissue1 c resp := rfl
    have e2 : c 1 (retry_prompt_content (count_code_lines (reissue1 c resp))) =
        reissue2 c resp := rfl
    have heq : ask_code_loop c u resp 0 =
        ⟨reissue2 c resp, max_retries,
         [retry_prompt_content (count_code_lines resp),
          retry_prompt_content (count_code_lines (reissue1 c resp))],
         if u then [resp, reissue1 c resp, reissue2 c resp] else []⟩ := by
      rw [ask_code_loop_step c u resp 0 h0 (by simp [max_retries])]
      rw [e1, show (0 : Nat) + 1 = 1 from rfl]
      rw [ask_code_loop_step c u (reissue1 c resp) 1 h1 (by simp [max_retries])]
      rw [e2, show (1 : Nat) + 1 = 2 from rfl]
      rw [ask_code_loop_exhaust c u (reissue2 c resp) 2 h2 (by simp [max_retries])]
      cases u <;> simp [max_retries]
    exact ⟨heq, by rw [heq]⟩

/-- Witness for C1: a constant completion client whose responses always
carry six code-like lines exhausts both reissues and the loop returns the
second reissue's text. -/
theorem ask_code_policy_loop_spec_witness :
    ask_code_loop (fun _ _ => sixCodeLines) true sixCodeLines 0 =
      ⟨reissue2 (fun _ _ => sixCodeLines) sixCodeLines, max_retries,
       [retry_prompt_content (count_code_lines sixCodeLines),
        retry_prompt_content (count_code_lines (reissue1 (fun _ _ => sixCodeLines) sixCodeLines))],
       if true then
         [sixCodeLines, reissue1 (fun _ _ => sixCodeLines) sixCodeLines,
          reissue2 (fun _ _ => sixCodeLines) sixCodeLines]
       else []⟩ ∧
    extract_content (ask_code_loop (fun _ _ => sixCodeLines) true sixCodeLines 0).response =
      extract_content (reissue2 (fun _ _ => sixCodeLines) sixCodeLines) :=
  (ask_code_policy_loop_spec (fun _ _ => sixCodeLines) true sixCodeLines).2.2
    (by decide) (by decide) (by decide)
